import Mathlib

/-!
Verification of the Parallel Item Processor pattern of this repository.

The definitions below are a shallow embedding of the map-reduce subagent in
src/parallel_processor_subagent.py (Extractor, Router, Worker, Aggregator)
and of the lazily initialized shared MCP client in
src/parallel_orchestra_with_mcp.py.  Python strings are modelled over ASCII
characters; Python dicts keyed by strings are modelled as association lists
in insertion order; awaited tool calls that may raise are modelled by
functions returning Except String, and the try/except boundary of a Worker
becomes an explicit match on that Except value.
-/

namespace DeepAgents

/-- Python str.isspace characters relevant here (the ASCII part of the
regex class \s used by re: space, tab, newline, carriage return, vertical
tab, form feed). -/
def isPySpace (c : Char) : Bool :=
  c = ' ' || c = '\t' || c = '\n' || c = '\r' || c = '\x0b' || c = '\x0c'

/-- Decimal value of a digit run, as computed by Python int(). -/
def natOfDigits (ds : List Char) : Nat :=
  ds.foldl (fun n c => 10 * n + (c.toNat - '0'.toNat)) 0

/-- Test whether the list begins with the given pattern (models the prefix
test used to search for a substring). -/
def startsWithL : List Char → List Char → Bool
  | _, [] => true
  | [], _ :: _ => false
  | c :: cs, p :: ps => c = p && startsWithL cs ps

/-- Python substring test, pat in s, over character lists. -/
def containsSub (l pat : List Char) : Bool :=
  match l with
  | [] => pat.isEmpty
  | _ :: rest => startsWithL l pat || containsSub rest pat

/-- Python substring test on strings. -/
def strContains (s pat : String) : Bool :=
  containsSub s.data pat.data

/-- Python str.lower on the ASCII range. -/
def pyLower (s : String) : String :=
  ⟨s.data.map Char.toLower⟩

/-- Python str.strip on a character list: drop whitespace from both ends. -/
def pyStripL (l : List Char) : List Char :=
  ((l.dropWhile isPySpace).reverse.dropWhile isPySpace).reverse

/-- Python str.strip. -/
def pyStrip (s : String) : String :=
  ⟨pyStripL s.data⟩

/-- Python content.split on a comma: always at least one segment, an empty
string splits to one empty segment. -/
def splitOnComma : List Char → List (List Char)
  | [] => [[]]
  | c :: cs =>
    match splitOnComma cs with
    | [] => [[c]]
    | h :: t => if c = ',' then [] :: h :: t else (c :: h) :: t

/-!
Pattern 1 of extract_items_from_request, the regex
  ^\s*\d+[\.\)]\s*(.+?)$
with re.MULTILINE, applied through re.findall.  The scan attempts a match
at every line start; . never matches a newline, $ matches at end of string
or before a newline, \s* is greedy with backtracking and (.+?) is lazy.
-/

/-- Backtracking tail of the numbered-line regex when the greedy whitespace
run extends to the end of the string: the engine gives characters back until
the lazy group can take the last whitespace character that is not a newline. -/
def backtrackWs : List Char → Option (List Char × List Char)
  | [] => none
  | c :: cs =>
    match backtrackWs cs with
    | some r => some r
    | none => if c = '\n' then none else some ([c], cs)

/-- Match of the suffix regex \s*(.+?)$ at a position: greedy whitespace,
then the lazy group extends to the next newline or the end of the string.
Returns the captured characters and the remainder after the match. -/
def matchTail (cs : List Char) : Option (List Char × List Char) :=
  let w := cs.takeWhile isPySpace
  let rest := cs.drop w.length
  match rest with
  | _ :: _ =>
    let cap := rest.takeWhile (fun c => !(c = '\n'))
    some (cap, rest.drop cap.length)
  | [] => backtrackWs w

/-- Match of \s*\d+[\.\)]\s*(.+?)$ at a line-start position. -/
def matchNumberedAt (cs : List Char) : Option (List Char × List Char) :=
  let w1 := cs.takeWhile isPySpace
  let r1 := cs.drop w1.length
  let ds := r1.takeWhile Char.isDigit
  if ds.isEmpty then none
  else
    match r1.drop ds.length with
    | c :: r3 => if c = '.' || c = ')' then matchTail r3 else none
    | [] => none

/-- Scan of re.findall over the content: attempt the numbered pattern at
every line start, resume after each non-overlapping match.  The fuel
argument only bounds the recursion; it is set to more than the length of
the scanned list so it never runs out. -/
def scanNumbered : Nat → List Char → Bool → List (List Char)
  | 0, _, _ => []
  | _ + 1, [], _ => []
  | fuel + 1, c :: rest, atLineStart =>
    if atLineStart then
      match matchNumberedAt (c :: rest) with
      | some (cap, after) => cap :: scanNumbered fuel after false
      | none => scanNumbered fuel rest (c = '\n')
    else
      scanNumbered fuel rest (c = '\n')

/-- Captures of the numbered-list pattern over the whole content, in file
order. -/
def numberedMatches (content : String) : List String :=
  (scanNumbered (content.data.length + 1) content.data true).map (fun l => ⟨l⟩)

/-!
Pattern 2, the count regex (\d+)\s+(songs?|articles?|items?|tasks?|topics?|
questions?|products?|websites?|pages?|documents?) with re.IGNORECASE,
applied through re.search: leftmost match wins, alternatives are tried in
order, the optional s is greedy.
-/

/-- Noun stems of the count pattern, in the order the alternation lists
them. -/
def nounStems : List (List Char) :=
  ["song", "article", "item", "task", "topic", "question", "product",
   "website", "page", "document"].map String.data

/-- Case-insensitive match of one stem plus an optional greedy s at the
head of the list; returns the matched slice of the original characters. -/
def stemHere (cs stem : List Char) : Option (List Char) :=
  if (cs.take stem.length).map Char.toLower = stem then
    match cs.drop stem.length with
    | c :: _ => if c.toLower = 's' then some (cs.take (stem.length + 1))
                else some (cs.take stem.length)
    | [] => some (cs.take stem.length)
  else none

/-- First stem of the alternation that matches at this position. -/
def matchNounAt (cs : List Char) : Option (List Char) :=
  match nounStems.findSome? (stemHere cs) with
  | some noun => some noun
  | none => none

/-- Attempt of the count pattern anchored at one position: a digit run,
a whitespace run, then a noun of the alternation. -/
def countAttemptAt (cs : List Char) : Option (Nat × List Char) :=
  let ds := cs.takeWhile Char.isDigit
  if ds.isEmpty then none
  else
    let r := cs.drop ds.length
    let ws := r.takeWhile isPySpace
    if ws.isEmpty then none
    else
      match matchNounAt (r.drop ws.length) with
      | some noun => some (natOfDigits ds, noun)
      | none => none

/-- re.search of the count pattern: try every start position from the left
and return the first match, as the pair (count, matched noun text). -/
def countSearch : List Char → Option (Nat × List Char)
  | [] => none
  | c :: rest =>
    match countAttemptAt (c :: rest) with
    | some r => some r
    | none => countSearch rest

/-!
Data model of the parallel processor (src/parallel_processor_subagent.py).
-/

/-- One extracted work item, as built by extract_items_from_request: the
Python dicts carry an id, a description and a task_type, and the count and
fallback branches additionally store the whole content string under the
content key. -/
structure WorkItem where
  id : Nat
  description : String
  content : Option String
  task_type : String
deriving DecidableEq, Repr

/-- Update returned by the extract_items node: the extracted items, plus
the errors contributed through the additive reducer (only the empty-input
branch contributes one). -/
structure ExtractOutput where
  items_to_process : List WorkItem
  errors : List String
deriving DecidableEq, Repr

/-- Task type detection of extract_items_from_request lines 166-172:
substring checks on the lowered content, in source order. -/
def detectTaskType (content : String) : String :=
  let low := pyLower content
  if strContains low "screenshot" then "screenshot"
  else if strContains low "navigate" then "navigate"
  else if strContains low "research" || strContains low "perplexity" then "research"
  else "generic"

/-- Enumerated map starting at index k, modelling a Python comprehension
over enumerate(xs). -/
def idxMapFrom (k : Nat) (f : Nat → α → β) : List α → List β
  | [] => []
  | a :: as => f k a :: idxMapFrom (k + 1) f as

/-- Pattern 1 items: one WorkItem per numbered-list capture, in file order,
with stripped description and a 1-based id. -/
def numberedItems (content : String) : List WorkItem :=
  idxMapFrom 0
    (fun i cap => { id := i + 1, description := pyStrip cap, content := none,
                    task_type := detectTaskType content })
    (numberedMatches content)

/-- Pattern 2 items: when the count pattern matches, count synthesized
WorkItems labeled by the matched noun and a 1-based index, each carrying
the whole content. -/
def countItems (content : String) : List WorkItem :=
  match countSearch content.data with
  | some (count, noun) =>
    (List.range count).map
      (fun i => { id := i + 1,
                  description := String.mk noun ++ " " ++ toString (i + 1),
                  content := some content,
                  task_type := detectTaskType content })
  | none => []

/-- Pattern 3 items: when the content has a comma, split on commas and
strip each part; one WorkItem per part when there are at least two parts
and every part is shorter than 100 characters, otherwise no items. -/
def commaItems (content : String) : List WorkItem :=
  if content.data.contains ',' then
    let parts := (splitOnComma content.data).map pyStripL
    if parts.length ≥ 2 && parts.all (fun p => p.length < 100) then
      idxMapFrom 0
        (fun i p => { id := i + 1, description := String.mk p, content := none,
                      task_type := detectTaskType content })
        parts
    else []
  else []

/-- Fallback items: the entire input becomes a single WorkItem. -/
def fallbackItems (content : String) : List WorkItem :=
  [{ id := 1, description := content, content := some content,
     task_type := detectTaskType content }]

/-- Reassignment step of the source, if not items: items = candidate. -/
def orElseIfEmpty (xs ys : List WorkItem) : List WorkItem :=
  if xs.isEmpty then ys else xs

/-- Extractor node (extract_items_from_request): with no messages it
contributes no items and the single error string No messages provided;
otherwise it reads the content of the last message and tries the numbered,
count and comma patterns in order, each only when the previous ones
produced no items, falling back to a single whole-content item.  The
function is total: no input raises. -/
def extract_items_from_request (messages : List String) : ExtractOutput :=
  match messages.getLast? with
  | none => { items_to_process := [], errors := ["No messages provided"] }
  | some content =>
    { items_to_process :=
        orElseIfEmpty
          (orElseIfEmpty
            (orElseIfEmpty (numberedItems content) (countItems content))
            (commaItems content))
          (fallbackItems content),
      errors := [] }

/-!
Router and Worker (route_to_parallel_workers, process_single_item).
-/

/-- One MCP tool as seen by a Worker: awaiting ainvoke on it either
returns a string result or raises, modelled by Except String with the
error message of the raised exception. -/
structure Tool where
  ainvoke : String → Except String String

/-- The shared chrome_tools dictionary: tool name to tool, in insertion
order. -/
def ToolMap := List (String × Tool)

/-- Python truthiness of the optional tools dictionary: None and the empty
dict are falsy. -/
def toolsTruthy : Option ToolMap → Bool
  | none => false
  | some m => !m.isEmpty

/-- Python dict.get on the tool map. -/
def lookupTool (tools : ToolMap) (name : String) : Option Tool :=
  match tools.find? (fun p => p.1 = name) with
  | some p => some p.2
  | none => none

/-- Search of process_single_item lines 288-292: the first tool whose
lowered name contains both perplexity and search, in insertion order. -/
def findPerplexityTool (tools : ToolMap) : Option Tool :=
  match tools.find?
      (fun p => strContains (pyLower p.1) "perplexity"
                  && strContains (pyLower p.1) "search") with
  | some p => some p.2
  | none => none

/-- Send payload built by route_to_parallel_workers for one item. -/
structure SendPayload where
  item_id : Nat
  item_description : String
  item_content : String
  task_type : String
  chrome_tools : Option ToolMap

/-- Router node (route_to_parallel_workers): one Send payload per item, in
order, carrying the item id, description, content (defaulting to the
description) and task type, plus the shared tools.  Extraction always sets
task_type, so the generic default of the source line 230 never fires. -/
def route_to_parallel_workers (items : List WorkItem) (chromeTools : Option ToolMap) :
    List SendPayload :=
  items.map
    (fun item => { item_id := item.id,
                   item_description := item.description,
                   item_content := item.content.getD item.description,
                   task_type := item.task_type,
                   chrome_tools := chromeTools })

/-- One success entry of the results list: the dict built by a Worker.
The screenshot key is only present in the screenshot branch, where it holds
the optional screenshot tool output. -/
structure PartialResult where
  item_id : Nat
  description : String
  result : String
  status : String
  details : String
  screenshot : Option (Option String)
deriving DecidableEq, Repr

/-- Update returned by one Worker through the additive reducers: a
singleton results list on success or a singleton errors list on failure. -/
structure WorkerOutput where
  results : List PartialResult
  errors : List String
deriving DecidableEq, Repr

/-- Screenshot branch, first awaited call (source lines 264-266): look up
the new page tool and invoke it on the item description when present; its
return value is discarded but a raise aborts the try body. -/
def newPageStep (p : SendPayload) : Except String Unit :=
  match lookupTool (p.chrome_tools.getD []) "mcp__chrome-dev-testing__new_page" with
  | some t => (t.ainvoke p.item_description).map (fun _ => ())
  | none => Except.ok ()

/-- Screenshot branch, second awaited call (source lines 269-272): the
screenshot result stays None when the tool is absent. -/
def takeScreenshotStep (p : SendPayload) : Except String (Option String) :=
  match lookupTool (p.chrome_tools.getD []) "mcp__chrome-dev-testing__take_screenshot" with
  | some t => (t.ainvoke "png").map some
  | none => Except.ok none

/-- Body of the try block of process_single_item: the branch on task type
and tool availability, with every awaited tool call threaded through
Except so that a raise aborts the body with the exception message. -/
def workerCore (p : SendPayload) : Except String PartialResult :=
  if p.task_type = "screenshot" ∧ toolsTruthy p.chrome_tools then
    match newPageStep p with
    | Except.error e => Except.error e
    | Except.ok _ =>
      match takeScreenshotStep p with
      | Except.error e => Except.error e
      | Except.ok scr =>
        Except.ok
          { item_id := p.item_id, description := p.item_description,
            result := "Screenshot taken for " ++ p.item_description,
            status := "success",
            details := "Successfully captured screenshot",
            screenshot := some scr }
  else if p.task_type = "research" ∧ toolsTruthy p.chrome_tools then
    match findPerplexityTool (p.chrome_tools.getD []) with
    | some t =>
      match t.ainvoke ("Research information about: " ++ p.item_description) with
      | Except.error e => Except.error e
      | Except.ok research_result =>
        Except.ok
          { item_id := p.item_id, description := p.item_description,
            result := research_result, status := "success",
            details := "Successfully researched using Perplexity",
            screenshot := none }
    | none =>
      Except.ok
        { item_id := p.item_id, description := p.item_description,
          result := "Perplexity tool not found, but would research: "
                      ++ p.item_description,
          status := "success",
          details := "Fallback: Perplexity tool not available",
          screenshot := none }
  else
    Except.ok
      { item_id := p.item_id, description := p.item_description,
        result := "Processed: " ++ p.item_description, status := "success",
        details := "Generic processing for item " ++ toString p.item_id,
        screenshot := none }

/-- Error string of the except branch of process_single_item. -/
def workerErrorMsg (p : SendPayload) (e : String) : String :=
  "Item " ++ toString p.item_id ++ " (" ++ String.mk (p.item_description.data.take 30)
    ++ "...): " ++ e

/-- Worker node (process_single_item): the try body either completes with
one PartialResult or raises, and the except clause converts any raise into
one error string carrying the item id; nothing propagates past this
function. -/
def process_single_item (p : SendPayload) : WorkerOutput :=
  match workerCore p with
  | Except.ok r => { results := [r], errors := [] }
  | Except.error e => { results := [], errors := [workerErrorMsg p e] }

/-!
Aggregator (aggregate_results).
-/

/-- Lines contributed to the report for one success entry: the id is
rendered right-aligned in width 2 as by the Python format spec 2d. -/
def fmt2d (n : Nat) : String :=
  let s := toString n
  String.mk (List.replicate (2 - s.length) ' ') ++ s

/-- Report lines for one entry of the results list (aggregate_results
lines 363-370); the details line appears only when details is truthy,
that is, a nonempty string. -/
def resultEntryLines (r : PartialResult) : List String :=
  ["[" ++ fmt2d r.item_id ++ "] " ++ r.description,
   "     Status: " ++ r.status]
  ++ (if r.details = "" then [] else ["     Details: " ++ r.details])
  ++ [""]

/-- All lines of the final report, exactly as aggregate_results builds
report_lines: header and counters, then a Results block if any results,
then an Errors block if any errors, then the closing lines. -/
def reportLines (results : List PartialResult) (errors : List String) :
    List String :=
  ["Parallel Processing Report",
   String.mk (List.replicate 60 '='),
   "Total items processed: " ++ toString results.length,
   "Successful: " ++ toString results.length,
   "Failed: " ++ toString errors.length,
   ""]
  ++ (if results.isEmpty then []
      else ["Results:", String.mk (List.replicate 60 '-')]
             ++ results.flatMap resultEntryLines)
  ++ (if errors.isEmpty then []
      else ["Errors:", String.mk (List.replicate 60 '-')]
             ++ errors.map (fun e => "  - " ++ e) ++ [""])
  ++ [String.mk (List.replicate 60 '='),
      "Processing complete. " ++ toString results.length
        ++ " items processed successfully."]

/-- Update returned by the aggregate_results node: the report string and
the single message wrapping it. -/
structure AggregateOutput where
  final_report : String
  messages : List String
deriving DecidableEq, Repr

/-- Aggregator node (aggregate_results): joins the report lines and also
returns the report as a message.  The function is total: it renders for
every results and errors value. -/
def aggregate_results (results : List PartialResult) (errors : List String) :
    AggregateOutput :=
  let final_report := String.intercalate "\n" (reportLines results errors)
  { final_report := final_report, messages := [final_report] }

/-- FinalReport of the specification data model, read off the rendered
report: total is the number printed on the Total items processed line,
succeeded the number on the Successful line, failed the number on the
Failed line (all three are established against reportLines in
reportLines_counters below), and body is the joined report. -/
structure FinalReport where
  total : Nat
  succeeded : Nat
  failed : Nat
  body : String
deriving DecidableEq, Repr

/-- FinalReport rendered by one Aggregator run. -/
def renderedFinalReport (results : List PartialResult) (errors : List String) :
    FinalReport :=
  { total := results.length,
    succeeded := results.length,
    failed := errors.length,
    body := (aggregate_results results errors).final_report }

/-!
Pipeline: the compiled graph runs the Extractor, then the Router fans out,
each payload is processed by one Worker, and the additive reducers merge
the singleton contributions in a completion order the engine does not fix.
Theorems about a run therefore quantify over any permutation of the list
of worker outputs.
-/

/-- Payloads submitted for one run. -/
def workerPayloads (msgs : List String) (tools : Option ToolMap) : List SendPayload :=
  route_to_parallel_workers (extract_items_from_request msgs).items_to_process tools

/-- Worker outputs of one run, in submission order. -/
def workerOutputs (msgs : List String) (tools : Option ToolMap) : List WorkerOutput :=
  (workerPayloads msgs tools).map process_single_item

/-- Merged results list of a set of worker outputs. -/
def gatheredResults (outs : List WorkerOutput) : List PartialResult :=
  outs.flatMap WorkerOutput.results

/-- Merged errors list of a set of worker outputs. -/
def gatheredErrors (outs : List WorkerOutput) : List String :=
  outs.flatMap WorkerOutput.errors

/-- Item ids of the payloads whose Worker reported an error. -/
def errorContributedIds (ps : List SendPayload) : List Nat :=
  (ps.filter (fun p => !(process_single_item p).errors.isEmpty)).map SendPayload.item_id

/-!
Lazy shared MCP client of src/parallel_orchestra_with_mcp.py.

The module holds the globals of lines 57-60 and the two getters
get_perplexity_tools and get_chrome_tools have the same shape: check
whether the cached tools global is None, construct a MultiServerMCPClient
when it is, suspend at the awaited get_tools call, and only then assign
the tools global.  There is no lock around the check.  The model below is
an explicit step relation: one coroutine calling the getter is a program
counter, the shared module state records the cached-tools global and how
many clients were constructed, and a schedule is a list of coroutine
indices fixing the interleaving order at the suspension points.
-/

/-- Module state of parallel_orchestra_with_mcp: the cached tools global
(the cached value itself is irrelevant, only whether it is None) and a
count of MultiServerMCPClient constructions. -/
structure OrchestraState where
  perplexity_tools : Option Unit
  client_constructions : Nat
deriving DecidableEq, Repr

/-- Program counter of one coroutine inside get_perplexity_tools. -/
inductive CallPhase
  /-- About to run the line if _perplexity_tools is None. -/
  | checking
  /-- Constructed the client and suspended at await get_tools(). -/
  | awaitingTools
  /-- Returned. -/
  | finished
deriving DecidableEq, Repr

/-- One atomic step of get_perplexity_tools: the None check returns the
cache when it is filled and otherwise constructs the client and suspends
at the awaited get_tools call; the resumed coroutine then assigns the
tools global and returns.  The cached-tools global is still None while a
constructing coroutine is suspended, which is exactly the unguarded
window of the source. -/
def get_perplexity_tools_step (s : OrchestraState) (pc : CallPhase) :
    OrchestraState × CallPhase :=
  match pc with
  | CallPhase.checking =>
    match s.perplexity_tools with
    | some _ => (s, CallPhase.finished)
    | none =>
      ({ s with client_constructions := s.client_constructions + 1 },
       CallPhase.awaitingTools)
  | CallPhase.awaitingTools =>
    ({ s with perplexity_tools := some () }, CallPhase.finished)
  | CallPhase.finished => (s, CallPhase.finished)

/-- Run one step of the coroutine with the given index. -/
def stepCall (st : OrchestraState × List CallPhase) (i : Nat) :
    OrchestraState × List CallPhase :=
  match st.2.get? i with
  | none => st
  | some pc =>
    ((get_perplexity_tools_step st.1 pc).1,
     st.2.set i (get_perplexity_tools_step st.1 pc).2)

/-- Run a whole interleaving schedule. -/
def runSchedule (sched : List Nat) (st : OrchestraState × List CallPhase) :
    OrchestraState × List CallPhase :=
  sched.foldl stepCall st

/-- Fresh module state with n coroutines about to call the getter. -/
def startOrchestra (n : Nat) : OrchestraState × List CallPhase :=
  ({ perplexity_tools := none, client_constructions := 0 },
   List.replicate n CallPhase.checking)

/-- One complete, uninterleaved call of get_perplexity_tools. -/
def runCallSeq (s : OrchestraState) : OrchestraState :=
  match get_perplexity_tools_step s CallPhase.checking with
  | (s1, CallPhase.awaitingTools) =>
    (get_perplexity_tools_step s1 CallPhase.awaitingTools).1
  | (s1, _) => s1

/-- Sequential first use: n calls of the getter, each run to completion
before the next starts. -/
def runSequentialCalls : Nat → OrchestraState → OrchestraState
  | 0, s => s
  | n + 1, s => runSequentialCalls n (runCallSeq s)

/-!
Shared lemmas.
-/

/-- The three counter fields of renderedFinalReport are exactly the
numbers on lines 2, 3 and 4 of the rendered report. -/
theorem reportLines_counters (results : List PartialResult) (errors : List String) :
    (reportLines results errors).get? 2 =
      some ("Total items processed: " ++ toString (renderedFinalReport results errors).total)
    ∧ (reportLines results errors).get? 3 =
      some ("Successful: " ++ toString (renderedFinalReport results errors).succeeded)
    ∧ (reportLines results errors).get? 4 =
      some ("Failed: " ++ toString (renderedFinalReport results errors).failed) := by
  refine ⟨?_, ?_, ?_⟩ <;> rfl

/-- Every Except.ok the try body builds carries the item id of the payload. -/
theorem workerCore_ok_id (p : SendPayload) (r : PartialResult)
    (h : workerCore p = Except.ok r) : r.item_id = p.item_id := by
  unfold workerCore at h
  split at h
  · split at h
    · exact absurd h (by simp)
    · split at h
      · exact absurd h (by simp)
      · cases h; rfl
  · split at h
    · split at h
      · split at h
        · exact absurd h (by simp)
        · cases h; rfl
      · cases h; rfl
    · cases h; rfl

/-- Worker dichotomy: each Worker returns exactly one success entry
carrying its item id, or exactly one error string built by
workerErrorMsg. -/
theorem worker_dichotomy (p : SendPayload) :
    (∃ r, process_single_item p = { results := [r], errors := [] }
            ∧ r.item_id = p.item_id)
    ∨ (∃ m, process_single_item p = { results := [], errors := [workerErrorMsg p m] }) := by
  unfold process_single_item
  cases h : workerCore p with
  | ok r => exact Or.inl ⟨r, rfl, workerCore_ok_id p r h⟩
  | error e => exact Or.inr ⟨e, rfl⟩

/-- Each Worker contributes exactly one entry across results and errors. -/
theorem worker_contribution_count (p : SendPayload) :
    (process_single_item p).results.length + (process_single_item p).errors.length = 1 := by
  rcases worker_dichotomy p with ⟨r, h, _⟩ | ⟨m, h⟩ <;> rw [h] <;> rfl

/-- The reassignment step keeps a nonempty candidate nonempty. -/
theorem orElseIfEmpty_ne_nil (xs ys : List WorkItem) (h : ys ≠ []) :
    orElseIfEmpty xs ys ≠ [] := by
  unfold orElseIfEmpty
  split
  · exact h
  · rename_i hx
    exact fun hn => hx (by simp [hn])

theorem extract_nonempty (msgs : List String) (h : msgs ≠ []) :
    (extract_items_from_request msgs).items_to_process ≠ []
      ∧ (extract_items_from_request msgs).errors = [] := by
  unfold extract_items_from_request
  cases hlast : msgs.getLast? with
  | none => exact absurd (List.getLast?_eq_none_iff.mp hlast) h
  | some content =>
    exact ⟨orElseIfEmpty_ne_nil _ _ (by simp [fallbackItems]), rfl⟩

/-- When every output contributes exactly one entry, the merged lists
together have one entry per output. -/
theorem gathered_length (outs : List WorkerOutput)
    (h : ∀ o ∈ outs, o.results.length + o.errors.length = 1) :
    (gatheredResults outs).length + (gatheredErrors outs).length = outs.length := by
  induction outs with
  | nil => rfl
  | cons o os ih =>
    have ho := h o (List.mem_cons_self o os)
    have hos := ih (fun o' m => h o' (List.mem_cons_of_mem _ m))
    simp only [gatheredResults, gatheredErrors, List.flatMap_cons,
      List.length_append, List.length_cons] at *
    omega

/-- The item ids contributed across results and errors are a permutation
of the submitted payload ids. -/
theorem contributions_perm (ps : List SendPayload) :
    List.Perm
      ((gatheredResults (ps.map process_single_item)).map PartialResult.item_id
        ++ errorContributedIds ps)
      (ps.map SendPayload.item_id) := by
  induction ps with
  | nil => simp [gatheredResults, errorContributedIds]
  | cons p ps ih =>
    rcases worker_dichotomy p with ⟨r, h, hid⟩ | ⟨m, h⟩
    · have hfilter : (!(process_single_item p).errors.isEmpty) = false := by
        rw [h]; rfl
      simp only [gatheredResults, errorContributedIds, List.map_cons,
        List.flatMap_cons, h, List.filter_cons, hfilter, Bool.false_eq_true,
        if_false, List.map_append, List.singleton_append, List.cons_append,
        List.map, hid] at *
      exact List.Perm.cons _ ih
    · have hfilter : (!(process_single_item p).errors.isEmpty) = true := by
        rw [h]; rfl
      simp only [gatheredResults, errorContributedIds, List.map_cons,
        List.flatMap_cons, h, List.filter_cons, hfilter, if_true,
        List.map_append, List.nil_append, List.map] at *
      exact List.Perm.trans List.perm_middle (List.Perm.cons _ ih)

/-- The merged errors list has one entry per payload whose Worker
reported an error. -/
theorem gatheredErrors_length (ps : List SendPayload) :
    (gatheredErrors (ps.map process_single_item)).length
      = (errorContributedIds ps).length := by
  induction ps with
  | nil => rfl
  | cons p ps ih =>
    rcases worker_dichotomy p with ⟨r, h, _⟩ | ⟨m, h⟩
    · have hfilter : (!(process_single_item p).errors.isEmpty) = false := by
        rw [h]; rfl
      simp only [gatheredErrors, errorContributedIds, List.map_cons,
        List.flatMap_cons, h, List.filter_cons, hfilter, Bool.false_eq_true,
        if_false, List.nil_append] at *
      exact ih
    · have hfilter : (!(process_single_item p).errors.isEmpty) = true := by
        rw [h]; rfl
      simp only [gatheredErrors, errorContributedIds, List.map_cons,
        List.flatMap_cons, h, List.filter_cons, hfilter, if_true,
        List.singleton_append, List.length_cons, List.map] at *
      omega

/-- Every merged error string was built by workerErrorMsg for one of the
submitted payloads, so it carries that payload item id in its text. -/
theorem gatheredErrors_mem (ps : List SendPayload) :
    ∀ e ∈ gatheredErrors (ps.map process_single_item),
      ∃ p, p ∈ ps ∧ ∃ m, e = workerErrorMsg p m := by
  induction ps with
  | nil => intro e he; simp [gatheredErrors] at he
  | cons p ps ih =>
    intro e he
    simp only [gatheredErrors, List.map_cons, List.flatMap_cons,
      List.mem_append] at he
    rcases he with he | he
    · rcases worker_dichotomy p with ⟨r, h, _⟩ | ⟨m, h⟩
      · rw [h] at he; simp at he
      · rw [h] at he
        simp only [List.mem_singleton] at he
        exact ⟨p, List.mem_cons_self p ps, m, he⟩
    · rcases ih e he with ⟨q, hq, m, hm⟩
      exact ⟨q, List.mem_cons_of_mem _ hq, m, hm⟩

/-!
Item ids assigned by the Extractor are 1-based and consecutive.
-/

/-- Predicate: the ids of the list are 1..length in order. -/
def idsConsecutive (l : List WorkItem) : Prop :=
  l.map WorkItem.id = List.range' 1 l.length

theorem idxMapFrom_map_id {α : Type} (f : Nat → α → WorkItem)
    (hf : ∀ i a, (f i a).id = i + 1) :
    ∀ (l : List α) (k : Nat),
      (idxMapFrom k f l).map WorkItem.id = List.range' (k + 1) l.length
  | [], _ => rfl
  | a :: as, k => by
    simp only [idxMapFrom, List.map_cons, List.length_cons, List.range'_succ,
      hf, idxMapFrom_map_id f hf as (k + 1)]

theorem idxMapFrom_length {α : Type} (f : Nat → α → WorkItem) :
    ∀ (l : List α) (k : Nat), (idxMapFrom k f l).length = l.length
  | [], _ => rfl
  | _ :: as, k => by
    simp only [idxMapFrom, List.length_cons, idxMapFrom_length f as (k + 1)]

theorem idsConsecutive_idxMapFrom {α : Type} (f : Nat → α → WorkItem)
    (hf : ∀ i a, (f i a).id = i + 1) (l : List α) :
    idsConsecutive (idxMapFrom 0 f l) := by
  unfold idsConsecutive
  rw [idxMapFrom_map_id f hf l 0, idxMapFrom_length]

theorem idsConsecutive_numbered (content : String) :
    idsConsecutive (numberedItems content) :=
  idsConsecutive_idxMapFrom _ (fun _ _ => rfl) _

theorem idsConsecutive_count (content : String) :
    idsConsecutive (countItems content) := by
  unfold countItems
  cases countSearch content.data with
  | none => rfl
  | some r =>
    unfold idsConsecutive
    simp only [List.map_map, List.length_map, List.length_range]
    rw [List.range'_eq_map_range]
    exact List.map_congr_left (fun i _ => Nat.add_comm i 1)

theorem idsConsecutive_comma (content : String) :
    idsConsecutive (commaItems content) := by
  unfold commaItems
  split
  · dsimp only
    split
    · exact idsConsecutive_idxMapFrom _ (fun _ _ => rfl) _
    · rfl
  · rfl

theorem idsConsecutive_fallback (content : String) :
    idsConsecutive (fallbackItems content) := rfl

theorem idsConsecutive_orElse (xs ys : List WorkItem)
    (hx : idsConsecutive xs) (hy : idsConsecutive ys) :
    idsConsecutive (orElseIfEmpty xs ys) := by
  unfold orElseIfEmpty
  split
  · exact hy
  · exact hx

/-- The extracted items carry the ids 1..N in order. -/
theorem extract_idsConsecutive (msgs : List String) (h : msgs ≠ []) :
    idsConsecutive (extract_items_from_request msgs).items_to_process := by
  unfold extract_items_from_request
  cases hlast : msgs.getLast? with
  | none => exact absurd (List.getLast?_eq_none_iff.mp hlast) h
  | some content =>
    exact idsConsecutive_orElse _ _
      (idsConsecutive_orElse _ _
        (idsConsecutive_orElse _ _ (idsConsecutive_numbered content)
          (idsConsecutive_count content))
        (idsConsecutive_comma content))
      (idsConsecutive_fallback content)

/-- The Router keeps ids: one payload per item, in order. -/
theorem route_map_id (items : List WorkItem) (tools : Option ToolMap) :
    (route_to_parallel_workers items tools).map SendPayload.item_id
      = items.map WorkItem.id := by
  simp only [route_to_parallel_workers, List.map_map]
  rfl

/-- The Router keeps descriptions: one payload per item, in order. -/
theorem route_map_description (items : List WorkItem) (tools : Option ToolMap) :
    (route_to_parallel_workers items tools).map SendPayload.item_description
      = items.map WorkItem.description := by
  simp only [route_to_parallel_workers, List.map_map]
  rfl

/-!
Claim theorems.
-/

/-- C1, counterexample: at a run with no successful result and one error,
the rendered report shows Total items processed: 0, Successful: 0 and
Failed: 1, so succeeded + failed is not the rendered total (the source
renders len(results), not len(results) + len(errors), as the total). -/
theorem C1_report_totals_cex :
    ¬ ((renderedFinalReport [] ["Item 1 (a...): boom"]).succeeded
         + (renderedFinalReport [] ["Item 1 (a...): boom"]).failed
         = (renderedFinalReport [] ["Item 1 (a...): boom"]).total
       ∧ (renderedFinalReport [] ["Item 1 (a...): boom"]).succeeded
         = ([] : List PartialResult).length
       ∧ (renderedFinalReport [] ["Item 1 (a...): boom"]).failed
         = ["Item 1 (a...): boom"].length) := by
  intro h
  exact absurd h.1 (by decide)

/-- C1, amended: the succeeded count equals the number of entries in
results and the failed count equals the number of entries in errors, but
the total the report renders is the number of entries in results, so
succeeded + failed equals the total exactly when errors is empty. -/
theorem C1_report_totals_amended (results : List PartialResult) (errors : List String) :
    (renderedFinalReport results errors).succeeded = results.length
    ∧ (renderedFinalReport results errors).failed = errors.length
    ∧ (renderedFinalReport results errors).total = results.length
    ∧ ((renderedFinalReport results errors).succeeded
         + (renderedFinalReport results errors).failed
         = (renderedFinalReport results errors).total ↔ errors = []) := by
  refine ⟨rfl, rfl, rfl, ?_⟩
  unfold renderedFinalReport
  dsimp only
  constructor
  · intro h
    have hz : errors.length = 0 := by omega
    exact List.length_eq_zero.mp hz
  · intro h
    subst h
    rfl

/-- C1, amended, witness at the empty run. -/
theorem C1_report_totals_amended_w :
    (renderedFinalReport [] []).succeeded + (renderedFinalReport [] []).failed
      = (renderedFinalReport [] []).total :=
  ((C1_report_totals_amended [] []).2.2.2).mpr rfl

/-- C4: every Worker returns exactly one success entry carrying its item
id, or exactly one error string built by workerErrorMsg, which embeds the
item id; nothing else can leave process_single_item, so no failure
propagates past the Worker boundary. -/
theorem C4_worker_boundary (p : SendPayload) :
    (∃ r, process_single_item p = { results := [r], errors := [] }
            ∧ r.item_id = p.item_id)
    ∨ (∃ m, process_single_item p
              = { results := [], errors := [workerErrorMsg p m] }) :=
  worker_dichotomy p

/-- C7: on the input Research 5 topics the count pattern fires and the
Extractor synthesizes exactly five WorkItems with ids 1 to 5 and
descriptions topics 1 to topics 5, in order. -/
theorem C7_count_scenario :
    extract_items_from_request ["Research 5 topics"]
      = { items_to_process :=
            [{ id := 1, description := "topics 1",
               content := some "Research 5 topics", task_type := "research" },
             { id := 2, description := "topics 2",
               content := some "Research 5 topics", task_type := "research" },
             { id := 3, description := "topics 3",
               content := some "Research 5 topics", task_type := "research" },
             { id := 4, description := "topics 4",
               content := some "Research 5 topics", task_type := "research" },
             { id := 5, description := "topics 5",
               content := some "Research 5 topics", task_type := "research" }],
          errors := [] } := by
  decide

/-- C9: with an empty messages list the Extractor returns no items and
the single error No messages provided, the Router submits no Workers, the
report still renders with Failed: 1 and the error line, and the
at-least-one-item fallback applies exactly when at least one message is
present. -/
theorem C9_empty_messages :
    extract_items_from_request []
        = { items_to_process := [], errors := ["No messages provided"] }
    ∧ (∀ tools : Option ToolMap,
        route_to_parallel_workers (extract_items_from_request []).items_to_process tools
          = [])
    ∧ ("Failed: 1") ∈ reportLines [] ["No messages provided"]
    ∧ ("  - No messages provided") ∈ reportLines [] ["No messages provided"]
    ∧ (∀ msgs : List String, msgs ≠ [] →
        (extract_items_from_request msgs).items_to_process ≠ []) := by
  refine ⟨rfl, fun tools => rfl, by decide, by decide, ?_⟩
  intro msgs h
  exact (extract_nonempty msgs h).1

/-- C9, witness: one message present, so the fallback yields items. -/
theorem C9_empty_messages_w :
    (extract_items_from_request ["x"]).items_to_process ≠ [] :=
  C9_empty_messages.2.2.2.2 ["x"] (by decide)

/-- C10: a Worker whose payload has no shared tool client, or whose task
type is neither screenshot nor research, takes the generic simulation
branch and returns the success result for its item; the error branch is
unreachable there. -/
theorem C10_generic_branch (p : SendPayload)
    (h : p.chrome_tools = none
          ∨ (p.task_type ≠ "screenshot" ∧ p.task_type ≠ "research")) :
    process_single_item p
      = { results := [{ item_id := p.item_id, description := p.item_description,
                        result := "Processed: " ++ p.item_description,
                        status := "success",
                        details := "Generic processing for item " ++ toString p.item_id,
                        screenshot := none }],
          errors := [] } := by
  have hf1 : ¬ (p.task_type = "screenshot" ∧ toolsTruthy p.chrome_tools = true) := by
    rcases h with h | ⟨h1, _⟩
    · intro hc
      rw [h] at hc
      exact absurd hc.2 (by decide)
    · intro hc
      exact h1 hc.1
  have hf2 : ¬ (p.task_type = "research" ∧ toolsTruthy p.chrome_tools = true) := by
    rcases h with h | ⟨_, h2⟩
    · intro hc
      rw [h] at hc
      exact absurd hc.2 (by decide)
    · intro hc
      exact h2 hc.1
  have hcore : workerCore p
      = Except.ok { item_id := p.item_id, description := p.item_description,
                    result := "Processed: " ++ p.item_description,
                    status := "success",
                    details := "Generic processing for item " ++ toString p.item_id,
                    screenshot := none } := by
    unfold workerCore
    rw [if_neg hf1, if_neg hf2]
  unfold process_single_item
  rw [hcore]

/-- C10, witness at a concrete generic payload without shared tools. -/
theorem C10_generic_branch_w :
    process_single_item
        { item_id := 7, item_description := "x", item_content := "x",
          task_type := "generic", chrome_tools := none }
      = { results := [{ item_id := 7, description := "x",
                        result := "Processed: " ++ "x", status := "success",
                        details := "Generic processing for item " ++ toString 7,
                        screenshot := none }],
          errors := [] } :=
  C10_generic_branch _ (Or.inl rfl)

/-- C2: for any input with at least one message and any completion order
of the workers, the merged results plus the merged errors (including the
empty error contribution of the Extractor) have exactly one entry per
extracted WorkItem: each submitted Worker contributes exactly one
singleton and the join waits for all of them. -/
theorem C2_completeness (msgs : List String) (tools : Option ToolMap)
    (outs : List WorkerOutput) (hmsgs : msgs ≠ [])
    (houts : List.Perm outs (workerOutputs msgs tools)) :
    (gatheredResults outs).length
      + ((extract_items_from_request msgs).errors ++ gatheredErrors outs).length
      = (extract_items_from_request msgs).items_to_process.length := by
  rw [(extract_nonempty msgs hmsgs).2, List.nil_append]
  have hone : ∀ o ∈ outs, o.results.length + o.errors.length = 1 := by
    intro o ho
    rcases List.mem_map.mp (houts.mem_iff.mp ho) with ⟨p, _, rfl⟩
    exact worker_contribution_count p
  rw [gathered_length outs hone, houts.length_eq]
  simp [workerOutputs, workerPayloads, route_to_parallel_workers]

/-- C2, witness on a concrete comma-split run with the canonical
completion order. -/
theorem C2_completeness_w :
    (gatheredResults (workerOutputs ["a, b"] none)).length
      + ((extract_items_from_request ["a, b"]).errors
          ++ gatheredErrors (workerOutputs ["a, b"] none)).length
      = (extract_items_from_request ["a, b"]).items_to_process.length :=
  C2_completeness ["a, b"] none (workerOutputs ["a, b"] none) (by decide)
    (List.Perm.refl _)

/-- C6: for every run, in particular one where every Worker failed, the
Aggregator renders the report: the Successful and Failed count lines are
present, and when errors is nonempty the Errors block marker and every
per-item error line are present.  aggregate_results is total, so the
report never fails to render. -/
theorem C6_report_renders (results : List PartialResult) (errors : List String) :
    ("Successful: " ++ toString results.length) ∈ reportLines results errors
    ∧ ("Failed: " ++ toString errors.length) ∈ reportLines results errors
    ∧ (errors ≠ [] →
        "Errors:" ∈ reportLines results errors
        ∧ ∀ e ∈ errors, ("  - " ++ e) ∈ reportLines results errors) := by
  refine ⟨by simp [reportLines], by simp [reportLines], ?_⟩
  intro herr
  have hne : errors.isEmpty = false := by
    simpa using herr
  constructor
  · simp [reportLines, hne]
  · intro e he
    have hm : ("  - " ++ e) ∈ errors.map (fun x => "  - " ++ x) :=
      List.mem_map_of_mem _ he
    simp only [reportLines, hne, Bool.false_eq_true, if_false, List.mem_append,
      List.mem_cons]
    tauto

/-- C6, witness: a run with no result and one failed Worker still renders
its error line. -/
theorem C6_report_renders_w :
    ("  - " ++ "boom") ∈ reportLines [] ["boom"] :=
  ((C6_report_renders [] ["boom"]).2.2 (by decide)).2 "boom" (by decide)

/-- C8, counterexample: with no lock around the None check of
get_perplexity_tools, the interleaving in which two concurrent first
callers both run the check before either assigns the cached global makes
both construct the expensive client, so it is not constructed at most
once. -/
theorem C8_lock_cex :
    ¬ ((runSchedule [0, 1, 0, 1] (startOrchestra 2)).1.client_constructions ≤ 1) := by
  decide

/-- C8, amended: the getter guards the lazy construction only by the None
check, with no initialization lock; calls that run to completion without
interleaving construct the client at most once, while concurrent first
use can construct it twice. -/
theorem C8_lazy_init_amended (n : Nat) :
    (runSequentialCalls n
        { perplexity_tools := none, client_constructions := 0 }).client_constructions
      ≤ 1 := by
  have habs : ∀ (k : Nat) (c : Nat),
      runSequentialCalls k { perplexity_tools := some (), client_constructions := c }
        = { perplexity_tools := some (), client_constructions := c } := by
    intro k
    induction k with
    | zero => intro c; rfl
    | succ k ih =>
      intro c
      have hstep : runCallSeq { perplexity_tools := some (), client_constructions := c }
          = { perplexity_tools := some (), client_constructions := c } := rfl
      show runSequentialCalls k
          (runCallSeq { perplexity_tools := some (), client_constructions := c }) = _
      rw [hstep, ih]
  cases n with
  | zero => exact Nat.zero_le 1
  | succ m =>
    have hfirst : runCallSeq { perplexity_tools := none, client_constructions := 0 }
        = { perplexity_tools := some (), client_constructions := 1 } := rfl
    show (runSequentialCalls m
        (runCallSeq { perplexity_tools := none, client_constructions := 0 })).client_constructions ≤ 1
    rw [hfirst, habs m 1]

/-- C3: for any input with a last message, the Extractor takes the first
pattern, in the fixed order numbered then count then comma then fallback,
that yields items, and always returns at least one WorkItem; the empty
string input yields exactly one WorkItem and no error entry, and the
function is total so no input raises. -/
theorem C3_extraction_order :
    (∀ (msgs : List String) (content : String), msgs.getLast? = some content →
      ((numberedItems content ≠ [] →
          (extract_items_from_request msgs).items_to_process = numberedItems content)
        ∧ (numberedItems content = [] → countItems content ≠ [] →
          (extract_items_from_request msgs).items_to_process = countItems content)
        ∧ (numberedItems content = [] → countItems content = [] →
            commaItems content ≠ [] →
          (extract_items_from_request msgs).items_to_process = commaItems content)
        ∧ (numberedItems content = [] → countItems content = [] →
            commaItems content = [] →
          (extract_items_from_request msgs).items_to_process = fallbackItems content)
        ∧ (extract_items_from_request msgs).items_to_process ≠ []))
    ∧ (extract_items_from_request [""]).items_to_process.length = 1
    ∧ (extract_items_from_request [""]).errors = [] := by
  refine ⟨?_, by decide, rfl⟩
  intro msgs content hlast
  have hitems : (extract_items_from_request msgs).items_to_process
      = orElseIfEmpty
          (orElseIfEmpty
            (orElseIfEmpty (numberedItems content) (countItems content))
            (commaItems content))
          (fallbackItems content) := by
    unfold extract_items_from_request
    rw [hlast]
  have hne : msgs ≠ [] := by
    intro h
    subst h
    simp at hlast
  refine ⟨?_, ?_, ?_, ?_, (extract_nonempty msgs hne).1⟩
  · intro h1
    have e1 : (numberedItems content).isEmpty = false := by simpa using h1
    rw [hitems]
    simp [orElseIfEmpty, e1]
  · intro h1 h2
    have e2 : (countItems content).isEmpty = false := by simpa using h2
    rw [hitems]
    simp [orElseIfEmpty, h1, e2]
  · intro h1 h2 h3
    have e3 : (commaItems content).isEmpty = false := by simpa using h3
    rw [hitems]
    simp [orElseIfEmpty, h1, h2, e3]
  · intro h1 h2 h3
    rw [hitems]
    simp [orElseIfEmpty, h1, h2, h3]

/-- C3, witness on a comma-split input: the two earlier patterns yield
nothing and the comma pattern wins. -/
theorem C3_extraction_order_w :
    (extract_items_from_request ["a, b"]).items_to_process = commaItems "a, b" :=
  (C3_extraction_order.1 ["a, b"] "a, b" rfl).2.2.1 (by decide) (by decide)
    (by decide)

/-- C5: the Router submits exactly one payload per extracted WorkItem, in
order, carrying its id and description; the extracted ids are 1..N; and
for any completion order, the item ids across the merged results and the
error contributions are a permutation of 1..N, each merged error being
the workerErrorMsg of one submitted payload, which embeds that payload
item id in its text. -/
theorem C5_no_item_loss (msgs : List String) (tools : Option ToolMap)
    (outs : List WorkerOutput) (hmsgs : msgs ≠ [])
    (houts : List.Perm outs (workerOutputs msgs tools)) :
    ((workerPayloads msgs tools).map SendPayload.item_id
        = (extract_items_from_request msgs).items_to_process.map WorkItem.id
      ∧ (workerPayloads msgs tools).map SendPayload.item_description
        = (extract_items_from_request msgs).items_to_process.map WorkItem.description)
    ∧ List.Perm
        ((gatheredResults outs).map PartialResult.item_id
          ++ errorContributedIds (workerPayloads msgs tools))
        (List.range' 1 (extract_items_from_request msgs).items_to_process.length)
    ∧ (gatheredErrors outs).length
        = (errorContributedIds (workerPayloads msgs tools)).length
    ∧ (∀ e ∈ gatheredErrors outs,
        ∃ p, p ∈ workerPayloads msgs tools ∧ ∃ m, e = workerErrorMsg p m) := by
  have hmapid : (workerPayloads msgs tools).map SendPayload.item_id
      = (extract_items_from_request msgs).items_to_process.map WorkItem.id :=
    route_map_id (extract_items_from_request msgs).items_to_process tools
  have hmapdesc : (workerPayloads msgs tools).map SendPayload.item_description
      = (extract_items_from_request msgs).items_to_process.map WorkItem.description :=
    route_map_description (extract_items_from_request msgs).items_to_process tools
  have hresults : List.Perm (gatheredResults outs)
      (gatheredResults (workerOutputs msgs tools)) :=
    List.Perm.flatMap_right WorkerOutput.results houts
  have herrs : List.Perm (gatheredErrors outs)
      (gatheredErrors (workerOutputs msgs tools)) :=
    List.Perm.flatMap_right WorkerOutput.errors houts
  have hcanon := contributions_perm (workerPayloads msgs tools)
  have htrans : List.Perm
      ((gatheredResults outs).map PartialResult.item_id
        ++ errorContributedIds (workerPayloads msgs tools))
      ((workerPayloads msgs tools).map SendPayload.item_id) :=
    List.Perm.trans
      (List.Perm.append_right _ (hresults.map PartialResult.item_id)) hcanon
  have hids : (extract_items_from_request msgs).items_to_process.map WorkItem.id
      = List.range' 1 (extract_items_from_request msgs).items_to_process.length :=
    extract_idsConsecutive msgs hmsgs
  rw [hmapid, hids] at htrans
  refine ⟨⟨hmapid, hmapdesc⟩, htrans, ?_, ?_⟩
  · rw [herrs.length_eq]
    exact gatheredErrors_length (workerPayloads msgs tools)
  · intro e he
    exact gatheredErrors_mem (workerPayloads msgs tools) e (herrs.mem_iff.mp he)

/-- C5, witness on a concrete comma-split run with the canonical
completion order. -/
theorem C5_no_item_loss_w :
    List.Perm
      ((gatheredResults (workerOutputs ["a, b"] none)).map PartialResult.item_id
        ++ errorContributedIds (workerPayloads ["a, b"] none))
      (List.range' 1 (extract_items_from_request ["a, b"]).items_to_process.length) :=
  (C5_no_item_loss ["a, b"] none (workerOutputs ["a, b"] none) (by decide)
    (List.Perm.refl _)).2.1

end DeepAgents
